import Mathlib

/-!
Shallow embedding of `forge/components/web/search.py` (WebSearchComponent):
the `web_search` command (DuckDuckGo text search with a bounded retry loop
and markdown rendering), the `google` command (credentialed Google Custom
Search with an error-mapping step), the `safe_google_results` sanitizer,
and the `get_commands` capability-discovery step.

Python strings are modelled as lists of Unicode code points (`List Nat`);
Python code may hold lone surrogates, so validity is tracked explicitly.
The DuckDuckGo provider is modelled as an oracle giving, for each
(query, max_results, attempt-index), the list of raw results of that call.
-/

namespace WebSearchPy

/-- Code points of a Lean string literal, as a Python string value. -/
def pyStr (s : String) : List Nat := s.data.map Char.toNat

/-- A code point survives Python's `.encode("utf-8", "ignore")` iff it is a
Unicode scalar value (everything except the surrogate range). -/
def encodableUtf8 (c : Nat) : Bool :=
  decide (c < 0xd800) || (decide (0xdfff < c) && decide (c < 0x110000))

/-- `s.encode("utf-8", "ignore").decode("utf-8")`: drop the code points that
the UTF-8 encoder cannot represent, keep the rest. -/
def dropInvalid (s : List Nat) : List Nat := s.filter encodableUtf8

/-- Lower-case hex digit, as in Python's `\uXXXX` escapes. -/
def hexDigit (n : Nat) : Nat := if n < 10 then 48 + n else 87 + n

/-- The six characters of a `\uXXXX` escape for a 16-bit value. -/
def uEscape (n : Nat) : List Nat :=
  [92, 117, hexDigit (n / 4096 % 16), hexDigit (n / 256 % 16),
   hexDigit (n / 16 % 16), hexDigit (n % 16)]

/-- How `json.dumps` (default `ensure_ascii=True`) writes one code point of a
string: short escapes for quote, backslash and common controls, `\uXXXX` for
other controls and all non-ASCII, surrogate pairs above the BMP. -/
def escapeChar (c : Nat) : List Nat :=
  if c = 34 then [92, 34]
  else if c = 92 then [92, 92]
  else if c = 8 then [92, 98]
  else if c = 12 then [92, 102]
  else if c = 10 then [92, 110]
  else if c = 13 then [92, 114]
  else if c = 9 then [92, 116]
  else if c < 32 then uEscape c
  else if c < 127 then [c]
  else if c < 65536 then uEscape c
  else uEscape (55296 + (c - 65536) / 1024) ++ uEscape (56320 + (c - 65536) % 1024)

/-- `json.dumps` of a single Python string (the surrounding quotes included). -/
def jsonString (s : List Nat) : List Nat := [34] ++ (s.map escapeChar).flatten ++ [34]

/-- `json.dumps` of a list of Python strings: brackets and a comma-space
separator, each element serialized as a JSON string. -/
def json_dumps_strlist (xs : List (List Nat)) : List Nat :=
  [91] ++ List.intercalate [44, 32] (xs.map jsonString) ++ [93]

/-- The argument of `safe_google_results`, typed `str | list` in the source. -/
inductive StrOrList where
  | str : List Nat → StrOrList
  | list : List (List Nat) → StrOrList
deriving DecidableEq

/-- `WebSearchComponent.safe_google_results`: for a list, re-encode each
element with errors ignored and `json.dumps` the cleaned list; for a plain
string, re-encode it and return it directly. -/
def safe_google_results : StrOrList → List Nat
  | StrOrList.list results => json_dumps_strlist (results.map dropInvalid)
  | StrOrList.str results => dropInvalid results

/-- One raw result dict from `DDGS().text`, with the keys the source reads:
`title`, `href`, `body` (an absent or empty body is the empty string, both
are falsy in the source's `r.get("body")` check). -/
structure DDGResult where
  title : List Nat
  href : List Nat
  body : List Nat
deriving DecidableEq

/-- `json.dumps` of one raw result dict (key order `title`, `href`, `body`). -/
def json_dumps_result (r : DDGResult) : List Nat :=
  [123] ++ jsonString (pyStr "title") ++ [58, 32] ++ jsonString r.title
        ++ [44, 32] ++ jsonString (pyStr "href") ++ [58, 32] ++ jsonString r.href
        ++ [44, 32] ++ jsonString (pyStr "body") ++ [58, 32] ++ jsonString r.body
        ++ [125]

/-- `json.dumps` of a list of raw result dicts (the loop's early return). -/
def json_dumps_results (rs : List DDGResult) : List Nat :=
  [91] ++ List.intercalate [44, 32] (rs.map json_dumps_result) ++ [93]

/-- One entry of the mapped result list: `{"title": ..., "url": ...}` plus an
`exerpt` key present only when the raw `body` is truthy (non-empty). -/
structure MappedResult where
  title : List Nat
  url : List Nat
  exerpt : Option (List Nat)
deriving DecidableEq

/-- The dict-comprehension step of `web_search`. -/
def mapResult (r : DDGResult) : MappedResult :=
  ⟨r.title, r.href, if r.body.isEmpty then none else some r.body⟩

/-- One rendered block of `web_search`'s markdown output: quoted title
heading, URL line (two trailing spaces), excerpt line with the quoted
excerpt when truthy and the literal `N/A` otherwise. -/
def renderBlock (r : MappedResult) : List Nat :=
  pyStr "### \"" ++ r.title ++ pyStr "\"\n" ++ pyStr "**URL:** " ++ r.url
    ++ pyStr "  \n" ++ pyStr "**Excerpt:** "
    ++ (match r.exerpt with
        | some e => if e.isEmpty then pyStr "N/A" else [34] ++ e ++ [34]
        | none => pyStr "N/A")

/-- The full rendering step of `web_search`: the header line (ending in a
single newline) followed by the blocks joined with a blank line. -/
def renderResults (rs : List DDGResult) : List Nat :=
  pyStr "## Search results\n"
    ++ List.intercalate (pyStr "\n\n") ((rs.map mapResult).map renderBlock)

/-- The configuration model of the component: two optional secret strings
(`None` or a Python string) and the retry count, a Python int. -/
structure WebSearchConfiguration where
  google_api_key : Option (List Nat)
  google_custom_search_engine_id : Option (List Nat)
  duckduckgo_max_attempts : Int
deriving DecidableEq

/-- The DuckDuckGo provider as an oracle: the raw result list returned by
the call `DDGS().text(query, max_results=num_results)` made on a given
attempt index (0-based). -/
def DDGProvider := List Nat → Nat → Nat → List DDGResult

/-- How the `while` loop of `web_search` ends: an early `return` of
`json.dumps(search_results)` (the empty-query branch), or falling through
to the rendering step with the final `search_results`. -/
inductive LoopExit where
  | early : List DDGResult → LoopExit
  | done : List DDGResult → LoopExit
deriving DecidableEq

/-- The `while attempts < duckduckgo_max_attempts` loop of `web_search`,
indexed by the remaining number of iterations (`fuel`), the current attempt
index and the current `search_results`. Returns how the loop exited, the
number of provider calls made, and the number of `time.sleep(1)` calls. -/
def wsLoop (provider : DDGProvider) (query : List Nat) (num_results : Nat) :
    Nat → Nat → List DDGResult → LoopExit × Nat × Nat
  | 0, _, cur => (LoopExit.done cur, 0, 0)
  | fuel + 1, attempt, cur =>
    if query.isEmpty then (LoopExit.early cur, 0, 0)
    else
      let res := provider query num_results attempt
      if res.isEmpty then
        match wsLoop provider query num_results fuel (attempt + 1) res with
        | (ex, calls, sleeps) => (ex, calls + 1, sleeps + 1)
      else (LoopExit.done res, 1, 0)

/-- `WebSearchComponent.web_search`: run the retry loop (the loop body runs
`max 0 duckduckgo_max_attempts` times unless it returns or breaks), then
either the early JSON dump, or map, render and sanitize the results.
Returns the output string, the provider-call count and the sleep count. -/
def web_search (provider : DDGProvider) (cfg : WebSearchConfiguration)
    (query : List Nat) (num_results : Nat) : List Nat × Nat × Nat :=
  match wsLoop provider query num_results cfg.duckduckgo_max_attempts.toNat 0 [] with
  | (LoopExit.early cur, calls, sleeps) => (json_dumps_results cur, calls, sleeps)
  | (LoopExit.done rs, calls, sleeps) =>
      (safe_google_results (StrOrList.str (renderResults rs)), calls, sleeps)

/-- One item of a successful Custom Search API response; the source keeps
only its `link` field. -/
structure ApiItem where
  link : List Nat
deriving DecidableEq

/-- Outcome of the credentialed API call: a successful response with its
`items`, or an `HttpError` whose decoded payload carries
`error.code` and `error.message`. -/
inductive ApiOutcome where
  | success : List ApiItem → ApiOutcome
  | httpError : Nat → List Nat → ApiOutcome
deriving DecidableEq

/-- A Python value that is a string or a list of strings (`str | list[str]`,
the annotated return type of `google`). -/
inductive PyValue where
  | str : List Nat → PyValue
  | list : List (List Nat) → PyValue
deriving DecidableEq

/-- How a call to `google` ends: a normal return value, a raised
`ConfigurationError` with its message, or the original `HttpError`
re-raised unchanged (code and message of its payload). -/
inductive GoogleOutcome where
  | ret : PyValue → GoogleOutcome
  | configurationError : List Nat → GoogleOutcome
  | reraised : Nat → List Nat → GoogleOutcome
deriving DecidableEq

/-- Python's `pat in s` on strings: `pat` occurs contiguously in `s`. -/
def containsSubstring (pat : List Nat) : List Nat → Bool
  | [] => pat.isEmpty
  | c :: rest => pat.isPrefixOf (c :: rest) || containsSubstring pat rest

/-- `WebSearchComponent.google`, given the outcome of the API call: on
success, extract the `link` of each item and return
`safe_google_results` of the link list (a string); on `HttpError`, raise
`ConfigurationError` when the payload's code is 403 and its message
contains "invalid API key", and re-raise the original error otherwise. -/
def google (outcome : ApiOutcome) : GoogleOutcome :=
  match outcome with
  | ApiOutcome.success items =>
      GoogleOutcome.ret (PyValue.str
        (safe_google_results (StrOrList.list (items.map ApiItem.link))))
  | ApiOutcome.httpError code msg =>
      if code = 403 && containsSubstring (pyStr "invalid API key") msg then
        GoogleOutcome.configurationError
          (pyStr "The provided Google API key is invalid or missing.")
      else GoogleOutcome.reraised code msg

/-- The two commands the component can yield. -/
inductive Command where
  | web_search
  | google
deriving DecidableEq

/-- Python truthiness of an `Optional[SecretStr]` field: `None` is falsy,
and a `SecretStr` is truthy iff the wrapped string is non-empty. -/
def secretTruthy : Option (List Nat) → Bool
  | none => false
  | some s => !s.isEmpty

/-- `WebSearchComponent.get_commands`: always yield `web_search`; yield
`google` only when both credential fields are truthy. -/
def get_commands (cfg : WebSearchConfiguration) : List Command :=
  [Command.web_search]
    ++ (if secretTruthy cfg.google_api_key
           && secretTruthy cfg.google_custom_search_engine_id
        then [Command.google] else [])

/-! Helper lemmas about the retry loop. -/

/-- The counts returned by `web_search` are exactly the counts of its loop:
the post-processing of either exit touches only the output string. -/
theorem web_search_counts (provider : DDGProvider) (cfg : WebSearchConfiguration)
    (query : List Nat) (num : Nat) :
    (web_search provider cfg query num).2 =
      (wsLoop provider query num cfg.duckduckgo_max_attempts.toNat 0 []).2 := by
  unfold web_search
  rcases h : wsLoop provider query num cfg.duckduckgo_max_attempts.toNat 0 [] with ⟨ex, c, s⟩
  cases ex <;> rfl

/-- If the query is non-empty and the provider answers every call with the
empty list, the loop uses all its fuel, making one call and one sleep per
iteration, and falls through with empty results. -/
theorem wsLoop_all_empty (provider : DDGProvider) (query : List Nat) (num : Nat)
    (hq : query ≠ []) (hp : ∀ q n a, provider q n a = []) :
    ∀ fuel attempt, wsLoop provider query num fuel attempt [] =
      (LoopExit.done [], fuel, fuel) := by
  have hq2 : query.isEmpty = false := by
    cases query with
    | nil => exact absurd rfl hq
    | cons a t => rfl
  intro fuel
  induction fuel with
  | zero => intro attempt; rfl
  | succ k ih =>
    intro attempt
    simp only [wsLoop, hq2, Bool.false_eq_true, if_false, hp, List.isEmpty_nil, if_true]
    rw [ih (attempt + 1)]

/-- The loop never sleeps more often than it has fuel. -/
theorem wsLoop_sleeps_le (provider : DDGProvider) (query : List Nat) (num : Nat) :
    ∀ fuel attempt cur, (wsLoop provider query num fuel attempt cur).2.2 ≤ fuel := by
  intro fuel
  induction fuel with
  | zero => intro attempt cur; exact Nat.le_refl 0
  | succ k ih =>
    intro attempt cur
    simp only [wsLoop]
    cases hq : query.isEmpty with
    | true => simp
    | false =>
      simp only [Bool.false_eq_true, if_false]
      cases hr : (provider query num attempt).isEmpty with
      | false => simp
      | true =>
        simp only [if_true]
        rcases h : wsLoop provider query num k (attempt + 1) (provider query num attempt)
          with ⟨ex, c, s⟩
        have hs : s ≤ k := by
          have h2 := ih (attempt + 1) (provider query num attempt)
          rw [h] at h2
          exact h2
        show s + 1 ≤ k + 1
        exact Nat.succ_le_succ hs

/-- If the query is non-empty and the first call yields results, the loop
breaks immediately after one call and no sleep. -/
theorem wsLoop_first_success (provider : DDGProvider) (query : List Nat) (num : Nat)
    (fuel : Nat) (hq : query ≠ []) (hp : provider query num 0 ≠ []) :
    wsLoop provider query num (fuel + 1) 0 [] =
      (LoopExit.done (provider query num 0), 1, 0) := by
  have hq2 : query.isEmpty = false := by
    cases query with
    | nil => exact absurd rfl hq
    | cons a t => rfl
  have hr : (provider query num 0).isEmpty = false := by
    cases h : provider query num 0 with
    | nil => exact absurd h hp
    | cons a t => rfl
  simp only [wsLoop, hq2, Bool.false_eq_true, if_false, hr]

/-! Claim theorems. -/

/-- Claim C1, counterexample: on a successful API call with one item whose
link is "u1", `google` does not return the list of sanitized URLs as a
list-of-strings value (it returns a string instead). -/
theorem c1_counterexample :
    google (ApiOutcome.success [⟨pyStr "u1"⟩]) ≠
      GoogleOutcome.ret (PyValue.list [pyStr "u1"]) := by decide

/-- Claim C1, amended: for every successful credentialed API call, `google`
returns a single string — the JSON serialization of the sanitized list of
result URLs — not a Python list of strings. -/
theorem c1_google_success_returns_string (items : List ApiItem) :
    google (ApiOutcome.success items) =
      GoogleOutcome.ret (PyValue.str
        (json_dumps_strlist ((items.map ApiItem.link).map dropInvalid))) := rfl

/-- Claim C2, counterexample: rendering the single provider result
(title "A", href "u1", body "b1") does not yield the string with a blank
line between the header and the first result block. -/
theorem c2_counterexample :
    renderResults [⟨pyStr "A", pyStr "u1", pyStr "b1"⟩] ≠
      pyStr "## Search results\n\n### \"A\"\n**URL:** u1  \n**Excerpt:** \"b1\"" := by
  decide

/-- Claim C2, amended: rendering the single provider result
(title "A", href "u1", body "b1") yields exactly the markdown string with a
single newline between the header line and the first result block. -/
theorem c2_render_single_result :
    renderResults [⟨pyStr "A", pyStr "u1", pyStr "b1"⟩] =
      pyStr "## Search results\n### \"A\"\n**URL:** u1  \n**Excerpt:** \"b1\"" := by
  decide

/-- Claim C4: on an `HttpError` whose payload has code 403 and whose message
contains "invalid API key", `google` raises `ConfigurationError` with the
invalid-or-missing-key message; on every other `HttpError`, the original
error is re-raised unchanged. -/
theorem c4_google_error_mapping (code : Nat) (msg : List Nat) :
    (code = 403 → containsSubstring (pyStr "invalid API key") msg = true →
      google (ApiOutcome.httpError code msg) =
        GoogleOutcome.configurationError
          (pyStr "The provided Google API key is invalid or missing.")) ∧
    (¬ (code = 403 ∧ containsSubstring (pyStr "invalid API key") msg = true) →
      google (ApiOutcome.httpError code msg) = GoogleOutcome.reraised code msg) := by
  constructor
  · intro hc hm
    simp [google, hc, hm]
  · intro h
    have hcond : (decide (code = 403) && containsSubstring (pyStr "invalid API key") msg)
        = false := by
      rcases Decidable.em (code = 403) with hc | hc
      · rcases Decidable.em (containsSubstring (pyStr "invalid API key") msg = true)
          with hm | hm
        · exact absurd ⟨hc, hm⟩ h
        · simp [hm]
      · simp [hc]
    simp [google, hcond]

/-- Claim C4, witness: a 403 payload mentioning "invalid API key" maps to
`ConfigurationError`; a 500 payload is re-raised unchanged. -/
theorem c4_google_error_mapping_witness :
    google (ApiOutcome.httpError 403
        (pyStr "The request is missing a valid API key. invalid API key")) =
      GoogleOutcome.configurationError
        (pyStr "The provided Google API key is invalid or missing.") ∧
    google (ApiOutcome.httpError 500 (pyStr "Internal error")) =
      GoogleOutcome.reraised 500 (pyStr "Internal error") :=
  ⟨(c4_google_error_mapping 403
      (pyStr "The request is missing a valid API key. invalid API key")).1
      rfl (by decide),
   (c4_google_error_mapping 500 (pyStr "Internal error")).2 (by decide)⟩

/-- Claim C7: the sanitizer turns the list ["a", "b"] into the JSON string
with a comma-space separator, and returns every already-valid plain string
unchanged with no JSON wrapping. -/
theorem c7_sanitizer (s : List Nat) (hs : ∀ c ∈ s, encodableUtf8 c = true) :
    safe_google_results (StrOrList.list [pyStr "a", pyStr "b"]) = pyStr "[\"a\", \"b\"]" ∧
    safe_google_results (StrOrList.str s) = s := by
  constructor
  · decide
  · simpa [safe_google_results, dropInvalid] using List.filter_eq_self.mpr hs

/-- Claim C7, witness: the list example, and the valid plain string "plain"
returned unchanged. -/
theorem c7_sanitizer_witness :
    safe_google_results (StrOrList.list [pyStr "a", pyStr "b"]) = pyStr "[\"a\", \"b\"]" ∧
    safe_google_results (StrOrList.str (pyStr "plain")) = pyStr "plain" :=
  c7_sanitizer (pyStr "plain") (by decide)

/-- Claim C9: the sanitizer is idempotent on plain strings: a second
encode-with-ignore/decode pass changes nothing. -/
theorem c9_sanitizer_idempotent (s : List Nat) :
    safe_google_results (StrOrList.str (safe_google_results (StrOrList.str s))) =
      safe_google_results (StrOrList.str s) := by
  simp [safe_google_results, dropInvalid, List.filter_filter]

/-- Claim C3, counterexample: with `duckduckgo_max_attempts = 3`, a non-empty
query and a provider that is empty on every attempt, `web_search` sleeps 3
times, not at most `3 - 1`. -/
theorem c3_counterexample :
    ¬ ((web_search (fun _ _ _ => []) ⟨none, none, 3⟩ (pyStr "q") 8).2.2 ≤ 3 - 1) := by
  decide

/-- Claim C3, amended: for every non-empty query, a run of `web_search`
performs at most `maxRetries` one-time-unit sleeps in total (one after each
empty-result attempt, the last attempt included); the run in which the
provider returns empty results on every attempt performs exactly
`maxRetries` sleeps. -/
theorem c3_sleep_bound (provider : DDGProvider) (cfg : WebSearchConfiguration)
    (query : List Nat) (num : Nat) (hq : query ≠ []) :
    (web_search provider cfg query num).2.2 ≤ cfg.duckduckgo_max_attempts.toNat ∧
    ((∀ q n a, provider q n a = []) →
      (web_search provider cfg query num).2.2 = cfg.duckduckgo_max_attempts.toNat) := by
  constructor
  · have h := wsLoop_sleeps_le provider query num cfg.duckduckgo_max_attempts.toNat 0 []
    calc (web_search provider cfg query num).2.2
        = (wsLoop provider query num cfg.duckduckgo_max_attempts.toNat 0 []).2.2 := by
          rw [web_search_counts]
      _ ≤ cfg.duckduckgo_max_attempts.toNat := h
  · intro hp
    have h := wsLoop_all_empty provider query num hq hp
      cfg.duckduckgo_max_attempts.toNat 0
    calc (web_search provider cfg query num).2.2
        = (wsLoop provider query num cfg.duckduckgo_max_attempts.toNat 0 []).2.2 := by
          rw [web_search_counts]
      _ = cfg.duckduckgo_max_attempts.toNat := by rw [h]

/-- Claim C3, witness: at `duckduckgo_max_attempts = 3` with an all-empty
provider, the sleep count is bounded by 3 and equals 3. -/
theorem c3_sleep_bound_witness :
    (web_search (fun _ _ _ => []) ⟨none, none, 3⟩ (pyStr "q") 8).2.2 ≤ 3 ∧
    (web_search (fun _ _ _ => []) ⟨none, none, 3⟩ (pyStr "q") 8).2.2 = 3 := by
  have h := c3_sleep_bound (fun _ _ _ => []) ⟨none, none, 3⟩ (pyStr "q") 8 (by decide)
  exact ⟨h.1, h.2 (fun _ _ _ => rfl)⟩

/-- Claim C5: when `duckduckgo_max_attempts ≥ 1`, an empty query makes
`web_search` return the string "[]" with no provider call (and no sleep). -/
theorem c5_empty_query (provider : DDGProvider) (cfg : WebSearchConfiguration)
    (num : Nat) (h : 1 ≤ cfg.duckduckgo_max_attempts) :
    web_search provider cfg [] num = (pyStr "[]", 0, 0) := by
  obtain ⟨m, hm⟩ : ∃ m, cfg.duckduckgo_max_attempts.toNat = m + 1 := by
    have h1 : 1 ≤ cfg.duckduckgo_max_attempts.toNat := by omega
    exact ⟨cfg.duckduckgo_max_attempts.toNat - 1, by omega⟩
  unfold web_search
  rw [hm, show wsLoop provider [] num (m + 1) 0 [] = (LoopExit.early [], 0, 0) from rfl]
  decide

/-- Claim C5, witness: with the default retry count 3 and a provider that
would return a result, the empty query still yields "[]" with zero calls. -/
theorem c5_empty_query_witness :
    web_search (fun _ _ _ => [⟨pyStr "t", pyStr "u", pyStr "b"⟩]) ⟨none, none, 3⟩ [] 8 =
      (pyStr "[]", 0, 0) :=
  c5_empty_query (fun _ _ _ => [⟨pyStr "t", pyStr "u", pyStr "b"⟩]) ⟨none, none, 3⟩ 8
    (by decide)

/-- Claim C6: for a non-empty query (and `duckduckgo_max_attempts ≥ 1`), if
the provider is empty on every attempt then `web_search` returns normally
with exactly `maxRetries` provider calls and the bare header as output; and
if the first attempt yields results, exactly one provider call is made. -/
theorem c6_call_counts (provider : DDGProvider) (cfg : WebSearchConfiguration)
    (query : List Nat) (num : Nat) (hq : query ≠ [])
    (hmax : 1 ≤ cfg.duckduckgo_max_attempts) :
    ((∀ q n a, provider q n a = []) →
      web_search provider cfg query num =
        (pyStr "## Search results\n", cfg.duckduckgo_max_attempts.toNat,
         cfg.duckduckgo_max_attempts.toNat)) ∧
    (provider query num 0 ≠ [] → (web_search provider cfg query num).2.1 = 1) := by
  constructor
  · intro hp
    have h := wsLoop_all_empty provider query num hq hp
      cfg.duckduckgo_max_attempts.toNat 0
    unfold web_search
    rw [h]
    have hout : safe_google_results (StrOrList.str (renderResults [])) =
        pyStr "## Search results\n" := by decide
    simpa using hout
  · intro hp
    obtain ⟨m, hm⟩ : ∃ m, cfg.duckduckgo_max_attempts.toNat = m + 1 := by
      have h1 : 1 ≤ cfg.duckduckgo_max_attempts.toNat := by omega
      exact ⟨cfg.duckduckgo_max_attempts.toNat - 1, by omega⟩
    have h := wsLoop_first_success provider query num m hq hp
    rw [web_search_counts, hm, h]

/-- Claim C6, witness: at retry count 3, an all-empty provider gives the bare
header with 3 calls, and a first-attempt success gives exactly 1 call. -/
theorem c6_call_counts_witness :
    web_search (fun _ _ _ => []) ⟨none, none, 3⟩ (pyStr "q") 8 =
      (pyStr "## Search results\n", 3, 3) ∧
    (web_search (fun _ _ _ => [⟨pyStr "t", pyStr "u", pyStr "b"⟩]) ⟨none, none, 3⟩
        (pyStr "q") 8).2.1 = 1 :=
  ⟨(c6_call_counts (fun _ _ _ => []) ⟨none, none, 3⟩ (pyStr "q") 8
      (by decide) (by decide)).1 (fun _ _ _ => rfl),
   (c6_call_counts (fun _ _ _ => [⟨pyStr "t", pyStr "u", pyStr "b"⟩]) ⟨none, none, 3⟩
      (pyStr "q") 8 (by decide) (by decide)).2 (by decide)⟩

/-- Claim C8: `get_commands` always yields `web_search`, and yields `google`
iff both the API key and the search engine ID are configured non-empty. -/
theorem c8_get_commands (cfg : WebSearchConfiguration) :
    Command.web_search ∈ get_commands cfg ∧
    (Command.google ∈ get_commands cfg ↔
      ((∃ k, cfg.google_api_key = some k ∧ k ≠ []) ∧
       (∃ e, cfg.google_custom_search_engine_id = some e ∧ e ≠ []))) := by
  obtain ⟨key, engine, maxA⟩ := cfg
  constructor
  · simp [get_commands]
  · cases key with
    | none => simp [get_commands, secretTruthy]
    | some k =>
      cases engine with
      | none => simp [get_commands, secretTruthy]
      | some e =>
        by_cases hk : k = [] <;> by_cases he : e = [] <;>
          simp [get_commands, secretTruthy, hk, he, List.isEmpty_iff]

/-- Claim C10: when `duckduckgo_max_attempts ≤ 0`, the loop body never runs,
so for every query — the empty one included — `web_search` makes no provider
call and returns the bare sanitized header, not "[]". -/
theorem c10_nonpositive_max_attempts (provider : DDGProvider)
    (cfg : WebSearchConfiguration) (query : List Nat) (num : Nat)
    (h : cfg.duckduckgo_max_attempts ≤ 0) :
    web_search provider cfg query num = (pyStr "## Search results\n", 0, 0) ∧
    (web_search provider cfg query num).1 ≠ pyStr "[]" := by
  have h0 : cfg.duckduckgo_max_attempts.toNat = 0 := by omega
  have hmain : web_search provider cfg query num = (pyStr "## Search results\n", 0, 0) := by
    unfold web_search
    rw [h0, show wsLoop provider query num 0 0 [] = (LoopExit.done [], 0, 0) from rfl]
    decide
  refine ⟨hmain, ?_⟩
  rw [hmain]
  decide

/-- Claim C10, witness: at `duckduckgo_max_attempts = 0` with the empty
query, the output is the bare header with zero provider calls. -/
theorem c10_nonpositive_max_attempts_witness :
    web_search (fun _ _ _ => [⟨pyStr "t", pyStr "u", pyStr "b"⟩]) ⟨none, none, 0⟩ [] 8 =
      (pyStr "## Search results\n", 0, 0) :=
  (c10_nonpositive_max_attempts (fun _ _ _ => [⟨pyStr "t", pyStr "u", pyStr "b"⟩])
    ⟨none, none, 0⟩ [] 8 (by decide)).1

end WebSearchPy
